import Mathlib

/-!
Verification development for `gold_sentinel.py`, a single-file news-to-alert
notifier: search -> AI analysis -> Discord webhook -> rolling JSON history.

Modelling conventions (shallow embedding):
* External library calls (the DuckDuckGo search, the Gemini model call,
  `json.loads`, `requests.post`) are inputs to the run: each is given as the
  outcome it would produce (`Except` for calls that may raise).
* The history file is modelled by its JSON-parse outcome: `none` means the
  file does not exist, `some (Except.error ())` means it exists but
  `json.load` raises, `some (Except.ok v)` means it parses to the value `v`.
  This abstracts byte-level formatting, which is exactly the granularity the
  round-trip and truncation properties are stated at.
* Python values produced by `json.loads` are modelled by the inductive `Json`
  (numbers as integers; no claim involves numeric payloads).
* Uncaught Python exceptions are modelled by `PyCrash` values; a run that
  crashes carries the effects performed before the crash.  CPython terminates
  with exit status 1 on an uncaught exception.
* Each `print` statement is modelled by a `LogEntry` constructor carrying the
  data interpolated into the printed message.
-/

/-- Python values that can result from `json.loads` (and the payloads built
by the program).  Object entries model a Python dict with distinct keys. -/
inductive Json where
  | null
  | bool (b : Bool)
  | num (n : Int)
  | str (s : String)
  | arr (elems : List Json)
  | obj (entries : List (String × Json))

/-- Whether a `Json` value is an object (a Python dict). -/
def Json.isObj : Json → Bool
  | .obj _ => true
  | _ => false

/-- Whether a `Json` value is an array (a Python list). -/
def Json.isArr : Json → Bool
  | .arr _ => true
  | _ => false

/-- One entry per `print` statement of `gold_sentinel.py`, carrying the data
interpolated into the message. -/
inductive LogEntry where
  | searching                        -- line 25: "Searching for latest Trump/Iran news..."
  | searchFailed (err : String)      -- line 34: "Search failed: ..."
  | aiFailed (err : String)          -- line 77: "AI Analysis failed: ..."
  | newUpdateFound (sourceText : Json)  -- line 127: "New update found: ..."
  | alertSent                        -- line 98: "Alert sent to Discord."
  | alertFailed (err : String)       -- line 100: "Discord Alert Failed: ..."
  | noUpdates                        -- line 136: "No significant new updates found."
  | secretsNotFound                  -- line 13: "Error: Secrets not found. ..."

/-- Uncaught Python exceptions the program can raise. -/
inductive PyCrash where
  | attrGet       -- line 110: .get on a value that is not a dict (AttributeError)
  | keyErrorSourceText  -- line 127: analysis["source_text"] with the key missing (KeyError)
  | typeErrorIn   -- line 82: "Bearish" in v, with v not str/list/dict (TypeError)
  | attrInsert    -- line 131: .insert on a value that is not a list (AttributeError)

/-- A DuckDuckGo search result snippet (title + body). -/
structure SearchResult where
  title : String
  body : String

/-! Character-level implementations of the Python string operations the
program uses (`str.replace(old, "")`, `str.strip()`, `sub in s`).  They are
structurally recursive so that concrete instances reduce by `rfl`. -/

/-- Strip `pat` from the front of `s`; `some rest` on success. -/
def stripPre : List Char → List Char → Option (List Char)
  | [], s => some s
  | _ :: _, [] => none
  | p :: ps, c :: cs => if p = c then stripPre ps cs else none

/-- Whether `pat` occurs (contiguously) anywhere in `s`;
Python `sub in s` for strings. -/
def containsSub (pat : List Char) : List Char → Bool
  | [] => (stripPre pat []).isSome
  | c :: cs => (stripPre pat (c :: cs)).isSome || containsSub pat cs

/-- Python substring test `sub in s`. -/
def containsSubstr (s sub : String) : Bool :=
  containsSub sub.data s.data

/-- Remove every non-overlapping occurrence of `pat` from `s`, scanning left
to right; the fuel bounds recursion depth and `s.length + 1` always
suffices.  This is Python `s.replace(pat, "")` for nonempty `pat`. -/
def removeAllAux (pat : List Char) : Nat → List Char → List Char
  | _, [] => []
  | 0, s => s
  | fuel + 1, c :: cs =>
    match stripPre pat (c :: cs) with
    | some rest => removeAllAux pat fuel rest
    | none => c :: removeAllAux pat fuel cs

/-- Python `s.replace(pat, "")` for a nonempty pattern. -/
def removeAll (s pat : String) : String :=
  String.mk (removeAllAux pat.data (s.data.length + 1) s.data)

/-- The whitespace characters removed by Python `str.strip()`. -/
def isPySpace (c : Char) : Bool :=
  c == ' ' || c == '\t' || c == '\n' || c == '\r' || c == '\x0b' || c == '\x0c'

/-- Python `s.strip()`: drop leading and trailing whitespace. -/
def pyStrip (s : String) : String :=
  String.mk (((s.data.dropWhile isPySpace).reverse.dropWhile isPySpace).reverse)

/-- Line 74: strip the code-fence markers the model may wrap its output in,
then strip surrounding whitespace. -/
def cleanResponse (t : String) : String :=
  pyStrip (removeAll (removeAll t "```json") "```")

/-- Python truthiness of a `json.loads` result. -/
def pyTruthy : Json → Bool
  | .null => false
  | .bool b => b
  | .num n => n != 0
  | .str s => s != ""
  | .arr xs => !xs.isEmpty
  | .obj kvs => !kvs.isEmpty

/-- Python `sub in v` for `sub` a string and `v` an arbitrary value:
substring test on strings, membership on lists, key membership on dicts,
TypeError otherwise. -/
def pyIn (sub : String) : Json → Except PyCrash Bool
  | .str s => Except.ok (containsSubstr s sub)
  | .arr xs => Except.ok (xs.any fun x =>
      match x with
      | .str t => t == sub
      | _ => false)
  | .obj kvs => Except.ok (kvs.any fun kv => kv.1 == sub)
  | _ => Except.error PyCrash.typeErrorIn

/-- Line 42 and 78: the value `{"found_new_update": False}` returned by the
analyzer on empty input and on any caught failure. -/
def noNewUpdate : Json :=
  Json.obj [("found_new_update", Json.bool false)]

/-- Result of `analyze_with_gemini`: the returned value, whether the
generative model was invoked, and the messages printed. -/
structure AnalyzeResult where
  value : Json
  aiCalled : Bool
  log : List LogEntry

/-- Lines 37-78, `analyze_with_gemini`.  `jsonLoads` is the outcome function
of the external `json.loads`; `ai` is the outcome of
`model.generate_content(prompt).text` (an exception or the response text).
The function is total: the `try` on lines 72-78 catches every failure of the
model call and of JSON parsing. -/
def analyze_with_gemini (jsonLoads : String → Except String Json)
    (ai : Except String String) (news_text : String) : AnalyzeResult :=
  if news_text = "" then
    { value := noNewUpdate, aiCalled := false, log := [] }
  else
    match ai with
    | Except.error e =>
      { value := noNewUpdate, aiCalled := true, log := [LogEntry.aiFailed e] }
    | Except.ok t =>
      match jsonLoads (cleanResponse t) with
      | Except.error e =>
        { value := noNewUpdate, aiCalled := true, log := [LogEntry.aiFailed e] }
      | Except.ok v =>
        { value := v, aiCalled := true, log := [] }

/-- Join a list of strings with a separator (Python `sep.join(xs)`). -/
def joinWith (sep : String) : List String → String
  | [] => ""
  | [x] => x
  | x :: y :: xs => x ++ sep ++ joinWith sep (y :: xs)

/-- Line 30: combine the search snippets into one block of text. -/
def newsSummary (rs : List SearchResult) : String :=
  joinWith "\n" (rs.map fun r => "- " ++ r.title ++ ": " ++ r.body)

/-- Lines 21-35, `get_latest_news`.  `search` is the outcome of
`DDGS().text(...)`.  Returns the news text and the messages printed. -/
def get_latest_news (search : Except String (List SearchResult)) :
    String × List LogEntry :=
  match search with
  | Except.error e => ("", [LogEntry.searching, LogEntry.searchFailed e])
  | Except.ok rs =>
    (if rs.isEmpty then "" else newsSummary rs, [LogEntry.searching])

/-- Successful completion of `send_alert`: the webhook payload that was
posted and the messages printed. -/
structure SendAlertOk where
  payload : Json
  log : List LogEntry

/-- Lines 80-100, `send_alert`.  `post` is the outcome of `requests.post`
(an exception, or the HTTP status code of the response).  The `try` on
lines 96-100 only wraps the POST itself; the color computation on line 82
can raise a `TypeError` that propagates to the caller.  Note that a
non-success HTTP status does not raise: `requests.post` returns the
response object and no status check is performed. -/
def send_alert (post : Except String Nat) (data : List (String × Json)) :
    Except PyCrash SendAlertOk :=
  match pyIn "Bearish" ((List.lookup "gold_forecast" data).getD (Json.str "")) with
  | Except.error c => Except.error c
  | Except.ok bearish =>
    let color : Int := if bearish then 15158332 else 3066993
    let embed : Json := Json.obj
      [ ("title", Json.str "🚨 GoldSentinel Alert")
      , ("description", (List.lookup "source_text" data).getD Json.null)
      , ("color", Json.num color)
      , ("fields", Json.arr
          [ Json.obj
              [ ("name", Json.str "Sentiment")
              , ("value", (List.lookup "sentiment" data).getD (Json.str "N/A"))
              , ("inline", Json.bool true) ]
          , Json.obj
              [ ("name", Json.str "Gold Forecast")
              , ("value", (List.lookup "gold_forecast" data).getD (Json.str "N/A"))
              , ("inline", Json.bool true) ]
          , Json.obj
              [ ("name", Json.str "Reasoning")
              , ("value", (List.lookup "reasoning" data).getD (Json.str "N/A")) ] ])
      , ("footer", Json.obj [("text", Json.str "Powered by Gemini 2.0 & GitHub Actions")]) ]
    let payload := Json.obj [("embeds", Json.arr [embed])]
    match post with
    | Except.ok _ => Except.ok { payload := payload, log := [LogEntry.alertSent] }
    | Except.error e => Except.ok { payload := payload, log := [LogEntry.alertFailed e] }

/-- Extract the color field of the single embed of a webhook payload. -/
def embedColor (payload : Json) : Option Json :=
  match payload with
  | Json.obj top =>
    match List.lookup "embeds" top with
    | some (Json.arr [Json.obj entries]) => List.lookup "color" entries
    | _ => none
  | _ => none

/-- Well-formedness of the `gold_forecast` field of a record handed to the
dispatcher: absent, or present with a string value (as the data model
specifies for AnalysisRecord fields). -/
def gfWF (data : List (String × Json)) : Prop :=
  List.lookup "gold_forecast" data = none ∨
    ∃ s, List.lookup "gold_forecast" data = some (Json.str s)

/-- The history file, modelled by its JSON-parse outcome: missing, existing
but unparseable, or parsing to a value. -/
abbrev FileState := Option (Except Unit Json)

/-- Lines 112-118: the value `history` holds after the load block.  Missing
file or parse failure yield the empty list; otherwise the parsed value is
kept as-is (it is not checked to be a list). -/
def loadHistory : FileState → Json
  | none => Json.arr []
  | some (Except.error _) => Json.arr []
  | some (Except.ok v) => v

/-- Lines 132-134: `json.dump(history[:50], f, indent=2)` — the file now
parses to the first 50 records. -/
def fileSave (history : List Json) : FileState :=
  some (Except.ok (Json.arr (history.take 50)))

/-- The list stored by one save step (lines 131-134): prepend the record,
keep the first 50.  This is also what the next run loads. -/
def runSave (history : List Json) (record : Json) : List Json :=
  (record :: history).take 50

/-- The outcomes of all external calls a run can make, plus the initial
history-file state. -/
structure RunInput where
  search : Except String (List SearchResult)
  ai : Except String String
  jsonLoads : String → Except String Json
  post : Except String Nat
  file : FileState

/-- Observable effects of a run. -/
structure RunState where
  log : List LogEntry
  aiCalled : Bool
  historyLoaded : Bool
  webhookPosted : Bool
  file : FileState

/-- A completed or crashed run: the effects performed, and the uncaught
exception if one was raised. -/
structure RunResult where
  state : RunState
  crashed : Option PyCrash

/-- Lines 109-136 of `main`: process the analysis result.  `log0` and
`aiCalled` are the effects of steps 1-2. -/
def mainProcess (inp : RunInput) (log0 : List LogEntry) (aiCalled : Bool)
    (analysis : Json) : RunResult :=
  match analysis with
  | Json.obj kvs =>
    if pyTruthy ((List.lookup "found_new_update" kvs).getD Json.null) then
      -- lines 112-118: load history
      let history := loadHistory inp.file
      -- line 127: analysis["source_text"] (KeyError if absent)
      match List.lookup "source_text" kvs with
      | none =>
        { state := { log := log0, aiCalled := aiCalled, historyLoaded := true,
                     webhookPosted := false, file := inp.file }
        , crashed := some PyCrash.keyErrorSourceText }
      | some st =>
        let log1 := log0 ++ [LogEntry.newUpdateFound st]
        -- line 128: send_alert (a TypeError inside it propagates)
        match send_alert inp.post kvs with
        | Except.error c =>
          { state := { log := log1, aiCalled := aiCalled, historyLoaded := true,
                       webhookPosted := false, file := inp.file }
          , crashed := some c }
        | Except.ok res =>
          let log2 := log1 ++ res.log
          -- line 131: history.insert(0, analysis) (AttributeError if not a list)
          match history with
          | Json.arr hs =>
            { state := { log := log2, aiCalled := aiCalled, historyLoaded := true,
                         webhookPosted := true, file := fileSave (Json.obj kvs :: hs) }
            , crashed := none }
          | _ =>
            { state := { log := log2, aiCalled := aiCalled, historyLoaded := true,
                         webhookPosted := true, file := inp.file }
            , crashed := some PyCrash.attrInsert }
    else
      { state := { log := log0 ++ [LogEntry.noUpdates], aiCalled := aiCalled,
                   historyLoaded := false, webhookPosted := false, file := inp.file }
      , crashed := none }
  | _ =>
    -- line 110: analysis.get on a non-dict value raises AttributeError
    { state := { log := log0, aiCalled := aiCalled, historyLoaded := false,
                 webhookPosted := false, file := inp.file }
    , crashed := some PyCrash.attrGet }

/-- Lines 102-136, `main`: search, analyze, process. -/
def runMain (inp : RunInput) : RunResult :=
  let sr := get_latest_news inp.search
  let ar := analyze_with_gemini inp.jsonLoads inp.ai sr.1
  mainProcess inp (sr.2 ++ ar.log) ar.aiCalled ar.value

/-- The value `analysis` holds on line 107 of a run. -/
def analysisOf (inp : RunInput) : Json :=
  (analyze_with_gemini inp.jsonLoads inp.ai (get_latest_news inp.search).1).value

/-- The two required environment variables (lines 10-11). -/
structure Env where
  gemini : Option String
  webhook : Option String

/-- Outcome of one process invocation: the messages printed, the run result
when `main` executed, and the process exit status. -/
structure ProcResult where
  log : List LogEntry
  ran : Option RunResult
  exitCode : Nat

/-- Lines 9-19 and 138-139: the whole process.  A missing environment
variable raises `KeyError`, caught on line 12, which prints the error
message and exits with status 1 before `main` runs and before any network
activity.  Otherwise `main` runs; normal completion exits 0, and an
uncaught exception makes CPython terminate with exit status 1. -/
def runProcess (env : Env) (inp : RunInput) : ProcResult :=
  if env.gemini.isSome && env.webhook.isSome then
    let r := runMain inp
    { log := r.state.log, ran := some r
    , exitCode := if r.crashed.isSome then 1 else 0 }
  else
    { log := [LogEntry.secretsNotFound], ran := none, exitCode := 1 }

/-! ### Concrete inputs used by witnesses and counterexamples -/

/-- Concrete environment with both secrets present (C3 witness). -/
def wEnv3 : Env := { gemini := some "key", webhook := some "url" }

/-- Concrete run input whose webhook POST raises a network error (C3). -/
def wInp3 : RunInput :=
  { search := Except.ok [{ title := "t", body := "b" }]
  , ai := Except.ok "resp"
  , jsonLoads := fun _ =>
      Except.ok (Json.obj [("found_new_update", Json.bool true), ("source_text", Json.str "s")])
  , post := Except.error "net down"
  , file := none }

/-- Concrete run input whose webhook POST returns a non-success HTTP
status (C3). -/
def wInp3ok : RunInput :=
  { search := Except.ok [{ title := "t", body := "b" }]
  , ai := Except.ok "resp"
  , jsonLoads := fun _ =>
      Except.ok (Json.obj [("found_new_update", Json.bool true), ("source_text", Json.str "s")])
  , post := Except.ok 500
  , file := none }

/-- Concrete run input whose search step yields no results (C6). -/
def wInp6 : RunInput :=
  { search := Except.ok []
  , ai := Except.error "never reached"
  , jsonLoads := fun _ => Except.error "never reached"
  , post := Except.error "never reached"
  , file := some (Except.ok (Json.arr [Json.str "old"])) }

/-- Concrete run input whose AI response parses to a JSON array, crashing
line 110 (C7). -/
def cexInp7 : RunInput :=
  { search := Except.ok [{ title := "t", body := "b" }]
  , ai := Except.ok "[1]"
  , jsonLoads := fun _ => Except.ok (Json.arr [Json.num 1])
  , post := Except.ok 204
  , file := none }

/-- Concrete environment with both secrets present (C9 witness). -/
def wEnv9 : Env := { gemini := some "key", webhook := some "url" }

/-- Concrete run input whose AI response parses to an empty JSON array (C9). -/
def wInp9 : RunInput :=
  { search := Except.ok [{ title := "t", body := "b" }]
  , ai := Except.ok "x"
  , jsonLoads := fun _ => Except.ok (Json.arr [])
  , post := Except.ok 204
  , file := none }

/-- Concrete run input whose history file parses to a JSON object, crashing
line 131 (C10). -/
def wInp10 : RunInput :=
  { search := Except.ok [{ title := "t", body := "b" }]
  , ai := Except.ok "x"
  , jsonLoads := fun _ =>
      Except.ok (Json.obj [("found_new_update", Json.bool true), ("source_text", Json.str "s")])
  , post := Except.ok 204
  , file := some (Except.ok (Json.obj [])) }

/-! ### Helper lemmas -/

/-- Unfolding of `runMain` into its three steps. -/
theorem runMain_eq (inp : RunInput) :
    runMain inp = mainProcess inp
      ((get_latest_news inp.search).2 ++
        (analyze_with_gemini inp.jsonLoads inp.ai (get_latest_news inp.search).1).log)
      (analyze_with_gemini inp.jsonLoads inp.ai (get_latest_news inp.search).1).aiCalled
      (analysisOf inp) := rfl

/-- With a well-formed `gold_forecast` field the dispatcher cannot raise. -/
theorem send_alert_ok_of_gfWF (post : Except String Nat)
    (data : List (String × Json)) (h : gfWF data) :
    ∃ r, send_alert post data = Except.ok r := by
  rcases h with h | ⟨s, h⟩ <;>
    (unfold send_alert; rw [h]; cases post <;> exact ⟨_, rfl⟩)

/-- When the POST raises, the dispatcher catches it and logs the failure. -/
theorem send_alert_log_of_post_error (e : String)
    (data : List (String × Json)) (h : gfWF data) :
    ∃ r, send_alert (Except.error e) data = Except.ok r ∧
      r.log = [LogEntry.alertFailed e] := by
  rcases h with h | ⟨s, h⟩ <;>
    (unfold send_alert; rw [h]; exact ⟨_, rfl, rfl⟩)

/-- When the POST returns a response — any HTTP status, success or not —
the dispatcher logs the success message: no status check exists. -/
theorem send_alert_log_of_post_ok (c : Nat)
    (data : List (String × Json)) (h : gfWF data) :
    ∃ r, send_alert (Except.ok c) data = Except.ok r ∧
      r.log = [LogEntry.alertSent] := by
  rcases h with h | ⟨s, h⟩ <;>
    (unfold send_alert; rw [h]; exact ⟨_, rfl, rfl⟩)

/-- The no-update branch of lines 109-136. -/
theorem mainProcess_no_update (inp : RunInput) (log0 : List LogEntry)
    (A : Bool) (kvs : List (String × Json))
    (h : pyTruthy ((List.lookup "found_new_update" kvs).getD Json.null) = false) :
    mainProcess inp log0 A (Json.obj kvs) =
      { state := { log := log0 ++ [LogEntry.noUpdates], aiCalled := A,
                   historyLoaded := false, webhookPosted := false, file := inp.file }
      , crashed := none } := by
  simp [mainProcess, h]

/-- The full alerting branch of lines 109-136 when nothing crashes. -/
theorem mainProcess_alert_ok (inp : RunInput) (log0 : List LogEntry) (A : Bool)
    (kvs : List (String × Json)) (st : Json) (r : SendAlertOk) (hs : List Json)
    (h2 : pyTruthy ((List.lookup "found_new_update" kvs).getD Json.null) = true)
    (h3 : List.lookup "source_text" kvs = some st)
    (hsend : send_alert inp.post kvs = Except.ok r)
    (h6 : loadHistory inp.file = Json.arr hs) :
    mainProcess inp log0 A (Json.obj kvs) =
      { state := { log := log0 ++ [LogEntry.newUpdateFound st] ++ r.log, aiCalled := A,
                   historyLoaded := true, webhookPosted := true,
                   file := fileSave (Json.obj kvs :: hs) }
      , crashed := none } := by
  simp [mainProcess, h2, h3, hsend, h6]

/-- The alerting branch when the loaded history value is not a list:
`history.insert` raises after the alert was dispatched, before the file is
rewritten. -/
theorem mainProcess_insert_crash (inp : RunInput) (log0 : List LogEntry) (A : Bool)
    (kvs : List (String × Json)) (st : Json) (r : SendAlertOk) (v : Json)
    (h2 : pyTruthy ((List.lookup "found_new_update" kvs).getD Json.null) = true)
    (h3 : List.lookup "source_text" kvs = some st)
    (hsend : send_alert inp.post kvs = Except.ok r)
    (h6 : loadHistory inp.file = v) (hv : v.isArr = false) :
    mainProcess inp log0 A (Json.obj kvs) =
      { state := { log := log0 ++ [LogEntry.newUpdateFound st] ++ r.log, aiCalled := A,
                   historyLoaded := true, webhookPosted := true, file := inp.file }
      , crashed := some PyCrash.attrInsert } := by
  cases v <;> simp_all [mainProcess, Json.isArr]

/-- Line 110 on a non-dict analysis value: `.get` raises before anything
else happens. -/
theorem mainProcess_nonobj (inp : RunInput) (log0 : List LogEntry) (A : Bool)
    (analysis : Json) (h : analysis.isObj = false) :
    mainProcess inp log0 A analysis =
      { state := { log := log0, aiCalled := A, historyLoaded := false,
                   webhookPosted := false, file := inp.file }
      , crashed := some PyCrash.attrGet } := by
  cases analysis <;> simp_all [mainProcess, Json.isObj]

/-- With both secrets present, the process runs `main` and exits 0 exactly
when no uncaught exception was raised. -/
theorem runProcess_full (env : Env) (inp : RunInput) (g w : String)
    (hg : env.gemini = some g) (hw : env.webhook = some w) :
    runProcess env inp =
      { log := (runMain inp).state.log, ran := some (runMain inp)
      , exitCode := if (runMain inp).crashed.isSome then 1 else 0 } := by
  unfold runProcess
  rw [hg, hw]
  simp

/-- With a secret missing, the process prints the error and exits 1 without
running `main`. -/
theorem runProcess_missing (env : Env) (inp : RunInput)
    (h : (env.gemini.isSome && env.webhook.isSome) = false) :
    runProcess env inp = { log := [LogEntry.secretsNotFound], ran := none, exitCode := 1 } := by
  simp [runProcess, h]

/-- Truncating after appending to an already-truncated list is the same as
truncating once. -/
theorem take_append_take {α : Type} (n : Nat) (a b : List α) :
    (a ++ b.take n).take n = (a ++ b).take n := by
  rcases Nat.le_total n a.length with h | h
  · rw [List.take_append_of_le_length h, List.take_append_of_le_length h]
  · rw [List.take_append_eq_append_take, List.take_append_eq_append_take,
      List.take_take, Nat.min_eq_left (Nat.sub_le n a.length)]

/-- Closed form of iterating the save step of lines 131-134: the history
after one or more runs is the first 50 of (records newest-first, then the
initial history). -/
theorem foldl_runSave_cons (rs : List Json) (r : Json) (h0 : List Json) :
    (r :: rs).foldl runSave h0 = ((r :: rs).reverse ++ h0).take 50 := by
  induction rs generalizing r h0 with
  | nil => simp [runSave]
  | cons r2 rs2 ih =>
    have h1 : (r :: r2 :: rs2).reverse ++ h0 = (r2 :: rs2).reverse ++ (r :: h0) := by
      simp
    rw [List.foldl_cons, ih r2 (runSave h0 r), h1,
      show runSave h0 r = List.take 50 (r :: h0) from rfl, take_append_take]

/-! ### Claims -/

/-- Claim C1: for every AI-model response, the analyzer on non-empty input
never raises (the embedding is a total function); any failure of the model
call, or of JSON parsing of the fence-stripped response text, is caught and
the analyzer returns the mapping with `found_new_update = false`. -/
theorem claim_C1_analyzer_failures_return_no_update
    (jsonLoads : String → Except String Json) (ai : Except String String)
    (news : String) (hne : news ≠ "")
    (hfail : (∃ e, ai = Except.error e) ∨
      (∃ t e, ai = Except.ok t ∧ jsonLoads (cleanResponse t) = Except.error e)) :
    (analyze_with_gemini jsonLoads ai news).value = noNewUpdate := by
  unfold analyze_with_gemini
  rw [if_neg hne]
  rcases hfail with ⟨e, he⟩ | ⟨t, e, ht, hp⟩
  · rw [he]
  · rw [ht]
    simp only [hp]

/-- Witness for C1 at a concrete failing parse. -/
theorem claim_C1_witness :
    ("news" ≠ "") ∧
      (analyze_with_gemini (fun _ => Except.error "invalid JSON")
        (Except.ok "not json") "news").value = noNewUpdate :=
  ⟨by decide, claim_C1_analyzer_failures_return_no_update _ _ _ (by decide)
    (Or.inr ⟨"not json", "invalid JSON", rfl, rfl⟩)⟩

/-- Claim C4: on empty input the analyzer short-circuits, returning
`found_new_update = false` without invoking the generative model. -/
theorem claim_C4_empty_input_short_circuits
    (jsonLoads : String → Except String Json) (ai : Except String String) :
    analyze_with_gemini jsonLoads ai "" =
      { value := noNewUpdate, aiCalled := false, log := [] } := rfl

/-- Claim C2: for every starting history and every nonempty sequence of runs
each prepending one record, the stored history has length at most 50, equals
the first 50 of the prepended records (newest first) followed by the prior
history, and once 50 or more records have been prepended it is exactly the
50 most recently prepended records in prepend order. -/
theorem claim_C2_history_truncation (h0 : List Json) (rs : List Json)
    (hne : rs ≠ []) :
    (rs.foldl runSave h0).length ≤ 50 ∧
    rs.foldl runSave h0 = (rs.reverse ++ h0).take 50 ∧
    (50 ≤ rs.length → rs.foldl runSave h0 = rs.reverse.take 50) := by
  obtain ⟨r, rs', rfl⟩ := List.exists_cons_of_ne_nil hne
  refine ⟨?_, foldl_runSave_cons rs' r h0, ?_⟩
  · rw [foldl_runSave_cons]
    exact List.length_take_le _ _
  · intro h50
    rw [foldl_runSave_cons, List.take_append_of_le_length]
    rwa [List.length_reverse]

/-- Witness for C2: one record prepended onto an oversized starting
history. -/
theorem claim_C2_witness :
    ([Json.bool true] ≠ ([] : List Json)) ∧
      (([Json.bool true].foldl runSave (List.replicate 60 Json.null)).length ≤ 50 ∧
       [Json.bool true].foldl runSave (List.replicate 60 Json.null) =
         ([Json.bool true].reverse ++ List.replicate 60 Json.null).take 50 ∧
       (50 ≤ ([Json.bool true] : List Json).length →
         [Json.bool true].foldl runSave (List.replicate 60 Json.null) =
           ([Json.bool true] : List Json).reverse.take 50)) :=
  ⟨List.cons_ne_nil _ _,
    claim_C2_history_truncation (List.replicate 60 Json.null) [Json.bool true]
      (List.cons_ne_nil _ _)⟩

/-- Claim C8: for a history file parsing to an array of at most 50 records,
loading keeps the records (order and field values intact) and saving the
loaded list reproduces the file content modulo formatting (the file is
modelled by its parsed JSON value). -/
theorem claim_C8_round_trip (l : List Json) (file : FileState)
    (hlen : l.length ≤ 50) (hfile : file = some (Except.ok (Json.arr l))) :
    loadHistory file = Json.arr l ∧ fileSave l = file := by
  subst hfile
  exact ⟨rfl, by simp [fileSave, List.take_of_length_le hlen]⟩

/-- Witness for C8 at a concrete one-record history. -/
theorem claim_C8_witness :
    ([Json.obj [("found_new_update", Json.bool true)]] : List Json).length ≤ 50 ∧
    loadHistory (some (Except.ok (Json.arr [Json.obj [("found_new_update", Json.bool true)]]))) =
      Json.arr [Json.obj [("found_new_update", Json.bool true)]] ∧
    fileSave [Json.obj [("found_new_update", Json.bool true)]] =
      some (Except.ok (Json.arr [Json.obj [("found_new_update", Json.bool true)]])) := by
  obtain ⟨a, b⟩ := claim_C8_round_trip
    [Json.obj [("found_new_update", Json.bool true)]] _ (by decide) rfl
  exact ⟨by decide, a, b⟩

/-- Color characterization of the dispatcher: when the line-82 membership
test evaluates to `b`, the dispatch succeeds and the embed color is red for
`b = true` and green for `b = false`. -/
theorem send_alert_color (post : Except String Nat) (kvs : List (String × Json))
    (b : Bool)
    (hb : pyIn "Bearish" ((List.lookup "gold_forecast" kvs).getD (Json.str "")) =
      Except.ok b) :
    ∃ r, send_alert post kvs = Except.ok r ∧
      embedColor r.payload = some (Json.num (if b then 15158332 else 3066993)) := by
  unfold send_alert
  rw [hb]
  cases b <;> cases post <;> exact ⟨_, rfl, rfl⟩

/-- Claim C5: for every record handed to the dispatcher whose
`gold_forecast` field is absent or a string, the dispatch does not raise and
the embed color is the red value 15158332 exactly when the field is present
and contains the substring "Bearish"; in every other case, including an
absent field or an arbitrary garbled string, it is the green value
3066993. -/
theorem claim_C5_bearish_red_otherwise_green (post : Except String Nat)
    (kvs : List (String × Json)) (h : gfWF kvs) :
    ∃ r, send_alert post kvs = Except.ok r ∧
      (embedColor r.payload = some (Json.num 15158332) ↔
        ∃ s, List.lookup "gold_forecast" kvs = some (Json.str s) ∧
          containsSubstr s "Bearish" = true) ∧
      (embedColor r.payload = some (Json.num 15158332) ∨
        embedColor r.payload = some (Json.num 3066993)) := by
  rcases h with h | ⟨s, h⟩
  · have hb : pyIn "Bearish" ((List.lookup "gold_forecast" kvs).getD (Json.str "")) =
        Except.ok false := by
      rw [h]
      rfl
    obtain ⟨r, hr, hcol⟩ := send_alert_color post kvs false hb
    refine ⟨r, hr, ⟨?_, ?_⟩, Or.inr (by rw [hcol]; rfl)⟩
    · intro hc
      rw [hcol] at hc
      simp at hc
    · rintro ⟨s2, hs2, _⟩
      rw [h] at hs2
      exact Option.noConfusion hs2
  · have hb : pyIn "Bearish" ((List.lookup "gold_forecast" kvs).getD (Json.str "")) =
        Except.ok (containsSubstr s "Bearish") := by
      rw [h]
      rfl
    cases hcs : containsSubstr s "Bearish" with
    | false =>
      obtain ⟨r, hr, hcol⟩ := send_alert_color post kvs false (by rw [hb, hcs])
      refine ⟨r, hr, ⟨?_, ?_⟩, Or.inr (by rw [hcol]; rfl)⟩
      · intro hc
        rw [hcol] at hc
        simp at hc
      · rintro ⟨s2, hs2, hc2⟩
        rw [h] at hs2
        injection hs2 with hs2'
        injection hs2' with hss
        rw [← hss, hcs] at hc2
        exact Bool.noConfusion hc2
    | true =>
      obtain ⟨r, hr, hcol⟩ := send_alert_color post kvs true (by rw [hb, hcs])
      exact ⟨r, hr, ⟨fun _ => ⟨s, h, hcs⟩, fun _ => by rw [hcol]; rfl⟩, Or.inl (by rw [hcol]; rfl)⟩

/-- Witness for C5 at a concrete record with a Bearish forecast. -/
theorem claim_C5_witness :
    gfWF [("gold_forecast", Json.str "Bearish fallout")] ∧
    (∃ r, send_alert (Except.ok 204) [("gold_forecast", Json.str "Bearish fallout")] =
        Except.ok r ∧
      (embedColor r.payload = some (Json.num 15158332) ↔
        ∃ s, List.lookup "gold_forecast" [("gold_forecast", Json.str "Bearish fallout")] =
            some (Json.str s) ∧ containsSubstr s "Bearish" = true) ∧
      (embedColor r.payload = some (Json.num 15158332) ∨
        embedColor r.payload = some (Json.num 3066993))) :=
  ⟨Or.inr ⟨"Bearish fallout", rfl⟩,
    claim_C5_bearish_red_otherwise_green (Except.ok 204) _
      (Or.inr ⟨"Bearish fallout", rfl⟩)⟩

/-- Claim C6: for every run whose search step yields empty text, the run
completes without crash, the analyzer is never invoked, the "no updates"
message is logged, no webhook call is made, the history-load block never
executes, and the history file is left unchanged. -/
theorem claim_C6_empty_search_leaves_history_untouched (inp : RunInput)
    (hempty : (get_latest_news inp.search).1 = "") :
    (runMain inp).crashed = none ∧
    (runMain inp).state.file = inp.file ∧
    (runMain inp).state.webhookPosted = false ∧
    (runMain inp).state.historyLoaded = false ∧
    (runMain inp).state.aiCalled = false ∧
    (runMain inp).state.log = (get_latest_news inp.search).2 ++ [LogEntry.noUpdates] := by
  have har : analyze_with_gemini inp.jsonLoads inp.ai (get_latest_news inp.search).1 =
      { value := noNewUpdate, aiCalled := false, log := [] } := by
    rw [hempty]
    rfl
  have hval : analysisOf inp = Json.obj [("found_new_update", Json.bool false)] := by
    unfold analysisOf
    rw [hempty]
    rfl
  rw [runMain_eq, har, hval, mainProcess_no_update inp _ _ _ (by rfl)]
  simp

/-- Witness for C6 at a concrete run with an empty search result. -/
theorem claim_C6_witness :
    (runMain wInp6).crashed = none ∧
    (runMain wInp6).state.file = wInp6.file ∧
    (runMain wInp6).state.webhookPosted = false ∧
    (runMain wInp6).state.historyLoaded = false ∧
    (runMain wInp6).state.aiCalled = false ∧
    (runMain wInp6).state.log = (get_latest_news wInp6.search).2 ++ [LogEntry.noUpdates] :=
  claim_C6_empty_search_leaves_history_untouched wInp6 rfl

/-- Counterexample for C3: a non-success HTTP response is not caught or
logged as a failure inside the dispatcher — `requests.post` does not raise
on a 500 status and no status check exists, so the dispatcher logs the
success message. -/
theorem claim_C3_counterexample :
    Except.map SendAlertOk.log (send_alert (Except.ok 500) []) =
      Except.ok [LogEntry.alertSent] := rfl

/-- Claim C3 (amended): a network error raised by the webhook POST is caught
and logged inside the dispatcher, while a non-success HTTP response is not
detected (the dispatcher logs the success message); in either case the run
still completes without crash with exit code 0 and the new record is still
prepended to and saved in the history file. -/
theorem claim_C3_amended_webhook_failure (env : Env) (inp : RunInput)
    (g w : String) (kvs : List (String × Json)) (st : Json) (hs : List Json)
    (hg : env.gemini = some g) (hw : env.webhook = some w)
    (h1 : analysisOf inp = Json.obj kvs)
    (h2 : pyTruthy ((List.lookup "found_new_update" kvs).getD Json.null) = true)
    (h3 : List.lookup "source_text" kvs = some st)
    (h4 : gfWF kvs)
    (h6 : loadHistory inp.file = Json.arr hs) :
    (runMain inp).crashed = none ∧
    (runProcess env inp).exitCode = 0 ∧
    (runMain inp).state.file = fileSave (Json.obj kvs :: hs) ∧
    (runMain inp).state.webhookPosted = true ∧
    (∀ e, inp.post = Except.error e →
      LogEntry.alertFailed e ∈ (runMain inp).state.log) ∧
    (∀ c, inp.post = Except.ok c →
      LogEntry.alertSent ∈ (runMain inp).state.log) := by
  have hrm : runMain inp = mainProcess inp
      ((get_latest_news inp.search).2 ++
        (analyze_with_gemini inp.jsonLoads inp.ai (get_latest_news inp.search).1).log)
      (analyze_with_gemini inp.jsonLoads inp.ai (get_latest_news inp.search).1).aiCalled
      (Json.obj kvs) := by
    rw [runMain_eq, h1]
  cases hp : inp.post with
  | error e =>
    obtain ⟨r, hr, hlog⟩ := send_alert_log_of_post_error e kvs h4
    have hsend : send_alert inp.post kvs = Except.ok r := by
      rw [hp]
      exact hr
    rw [runProcess_full env inp g w hg hw, hrm,
      mainProcess_alert_ok _ _ _ _ _ _ _ h2 h3 hsend h6, hlog]
    refine ⟨rfl, by simp, rfl, rfl, ?_, ?_⟩
    · intro e2 he2
      injection he2 with hee
      subst hee
      simp
    · intro c hc
      exact Except.noConfusion hc
  | ok c =>
    obtain ⟨r, hr, hlog⟩ := send_alert_log_of_post_ok c kvs h4
    have hsend : send_alert inp.post kvs = Except.ok r := by
      rw [hp]
      exact hr
    rw [runProcess_full env inp g w hg hw, hrm,
      mainProcess_alert_ok _ _ _ _ _ _ _ h2 h3 hsend h6, hlog]
    refine ⟨rfl, by simp, rfl, rfl, ?_, ?_⟩
    · intro e2 he2
      exact Except.noConfusion he2
    · intro c2 hc2
      simp

/-- Witness for C3 at two concrete runs: one whose POST raises a network
error and one whose POST returns a non-success HTTP 500 status; both
complete with exit code 0 and persist the new record. -/
theorem claim_C3_witness :
    ((runMain wInp3).crashed = none ∧
     (runProcess wEnv3 wInp3).exitCode = 0 ∧
     (runMain wInp3).state.file =
       fileSave (Json.obj [("found_new_update", Json.bool true),
         ("source_text", Json.str "s")] :: []) ∧
     (runMain wInp3).state.webhookPosted = true ∧
     (∀ e, wInp3.post = Except.error e →
       LogEntry.alertFailed e ∈ (runMain wInp3).state.log) ∧
     (∀ c, wInp3.post = Except.ok c →
       LogEntry.alertSent ∈ (runMain wInp3).state.log)) ∧
    ((runMain wInp3ok).crashed = none ∧
     (runProcess wEnv3 wInp3ok).exitCode = 0 ∧
     (runMain wInp3ok).state.file =
       fileSave (Json.obj [("found_new_update", Json.bool true),
         ("source_text", Json.str "s")] :: []) ∧
     (runMain wInp3ok).state.webhookPosted = true ∧
     (∀ e, wInp3ok.post = Except.error e →
       LogEntry.alertFailed e ∈ (runMain wInp3ok).state.log) ∧
     (∀ c, wInp3ok.post = Except.ok c →
       LogEntry.alertSent ∈ (runMain wInp3ok).state.log)) :=
  ⟨claim_C3_amended_webhook_failure wEnv3 wInp3 "key" "url"
      [("found_new_update", Json.bool true), ("source_text", Json.str "s")]
      (Json.str "s") [] rfl rfl rfl rfl rfl (Or.inl rfl) rfl,
   claim_C3_amended_webhook_failure wEnv3 wInp3ok "key" "url"
      [("found_new_update", Json.bool true), ("source_text", Json.str "s")]
      (Json.str "s") [] rfl rfl rfl rfl rfl (Or.inl rfl) rfl⟩

/-- Counterexample for C7: with both secrets present, a run whose AI
response parses to a JSON array terminates by an uncaught exception, so the
process exit status is 1 (the CPython status for an unhandled exception)
even though no configuration is missing. -/
theorem claim_C7_counterexample :
    (Env.mk (some "key") (some "url")).gemini.isSome = true ∧
    (Env.mk (some "key") (some "url")).webhook.isSome = true ∧
    (runProcess (Env.mk (some "key") (some "url")) cexInp7).exitCode = 1 ∧
    (runMain cexInp7).crashed = some PyCrash.attrGet :=
  ⟨rfl, rfl, rfl, rfl⟩

/-- Claim C7 (amended): a missing required environment variable makes the
process print the descriptive message and exit with status 1 before `main`
runs (so before any network activity); with both present, the process exits
0 exactly when the run raises no uncaught exception, and exits 1 exactly
when configuration is missing or an uncaught exception was raised. -/
theorem claim_C7_amended_exit_codes (env : Env) (inp : RunInput) :
    ((runProcess env inp).exitCode = 0 ∨ (runProcess env inp).exitCode = 1) ∧
    ((env.gemini.isSome && env.webhook.isSome) = false →
      runProcess env inp =
        { log := [LogEntry.secretsNotFound], ran := none, exitCode := 1 }) ∧
    ((env.gemini.isSome && env.webhook.isSome) = true →
      ((runProcess env inp).exitCode = 0 ↔ (runMain inp).crashed = none)) ∧
    ((runProcess env inp).exitCode = 1 ↔
      ((env.gemini.isSome && env.webhook.isSome) = false ∨
        (runMain inp).crashed.isSome = true)) := by
  by_cases hc : (env.gemini.isSome && env.webhook.isSome) = true
  · obtain ⟨g, hg⟩ : ∃ g, env.gemini = some g := by
      cases hgem : env.gemini
      · rw [hgem] at hc
        simp at hc
      · exact ⟨_, rfl⟩
    obtain ⟨w, hw⟩ : ∃ w, env.webhook = some w := by
      cases hweb : env.webhook
      · rw [hweb] at hc
        simp at hc
      · exact ⟨_, rfl⟩
    rw [runProcess_full env inp g w hg hw]
    cases hcr : (runMain inp).crashed <;> simp [hc, hcr]
  · have hc' : (env.gemini.isSome && env.webhook.isSome) = false :=
      eq_false_of_ne_true hc
    rw [runProcess_missing env inp hc']
    simp [hc']

/-- Witness for C7 at a concrete environment with the AI credential
missing. -/
theorem claim_C7_witness :
    runProcess (Env.mk none (some "url")) cexInp7 =
      { log := [LogEntry.secretsNotFound], ran := none, exitCode := 1 } :=
  (claim_C7_amended_exit_codes (Env.mk none (some "url")) cexInp7).2.1 rfl

/-- Claim C9: the analyzer returns the parsed JSON value without checking
that it is an object; whenever the analysis value is not an object, the
field access on line 110 raises an uncaught AttributeError, no webhook call
is made, the history file is untouched, and the process terminates
abnormally with exit status 1 instead of a normal exit path. -/
theorem claim_C9_nonobject_analysis_crashes (env : Env) (inp : RunInput)
    (g w : String) (hg : env.gemini = some g) (hw : env.webhook = some w)
    (hno : (analysisOf inp).isObj = false) :
    (runMain inp).crashed = some PyCrash.attrGet ∧
    (runMain inp).state.file = inp.file ∧
    (runMain inp).state.webhookPosted = false ∧
    (runMain inp).state.historyLoaded = false ∧
    (runProcess env inp).exitCode = 1 := by
  rw [runProcess_full env inp g w hg hw, runMain_eq,
    mainProcess_nonobj _ _ _ _ hno]
  simp

/-- Witness for C9 at a concrete run whose AI response parses to a JSON
array. -/
theorem claim_C9_witness :
    (runMain wInp9).crashed = some PyCrash.attrGet ∧
    (runMain wInp9).state.file = wInp9.file ∧
    (runMain wInp9).state.webhookPosted = false ∧
    (runMain wInp9).state.historyLoaded = false ∧
    (runProcess wEnv9 wInp9).exitCode = 1 :=
  claim_C9_nonobject_analysis_crashes wEnv9 wInp9 "key" "url" rfl rfl rfl

/-- Claim C10: the history load keeps whatever JSON value the file parses
to; when that value is not a list, the prepend on line 131 raises an
uncaught AttributeError after the alert was dispatched and before the file
is rewritten, leaving the file unchanged. -/
theorem claim_C10_nonlist_history_crashes (inp : RunInput)
    (kvs : List (String × Json)) (st : Json) (v : Json)
    (h1 : analysisOf inp = Json.obj kvs)
    (h2 : pyTruthy ((List.lookup "found_new_update" kvs).getD Json.null) = true)
    (h3 : List.lookup "source_text" kvs = some st)
    (h4 : gfWF kvs)
    (h5 : inp.file = some (Except.ok v))
    (hv : v.isArr = false) :
    loadHistory inp.file = v ∧
    (runMain inp).crashed = some PyCrash.attrInsert ∧
    (runMain inp).state.file = inp.file ∧
    (runMain inp).state.webhookPosted = true := by
  obtain ⟨r, hr⟩ := send_alert_ok_of_gfWF inp.post kvs h4
  have h6 : loadHistory inp.file = v := by
    rw [h5]
    rfl
  have hrm : runMain inp = mainProcess inp
      ((get_latest_news inp.search).2 ++
        (analyze_with_gemini inp.jsonLoads inp.ai (get_latest_news inp.search).1).log)
      (analyze_with_gemini inp.jsonLoads inp.ai (get_latest_news inp.search).1).aiCalled
      (Json.obj kvs) := by
    rw [runMain_eq, h1]
  refine ⟨h6, ?_, ?_, ?_⟩ <;>
    rw [hrm, mainProcess_insert_crash _ _ _ _ _ _ _ h2 h3 hr h6 hv]

/-- Witness for C10 at a concrete run whose history file parses to a JSON
object. -/
theorem claim_C10_witness :
    loadHistory wInp10.file = Json.obj [] ∧
    (runMain wInp10).crashed = some PyCrash.attrInsert ∧
    (runMain wInp10).state.file = wInp10.file ∧
    (runMain wInp10).state.webhookPosted = true :=
  claim_C10_nonlist_history_crashes wInp10
    [("found_new_update", Json.bool true), ("source_text", Json.str "s")]
    (Json.str "s") (Json.obj []) rfl rfl rfl (Or.inl rfl) rfl rfl
